import Mathlib

/-!
Verification of the Lithium-Validation core scoring engine
(`lithium_validation/core/validation_engine.py`).

The engine is embedded shallowly:

* Python floats are modelled as exact rationals (`ℚ`); every constant in the
  engine is a short decimal, so the arithmetic of the source is represented
  exactly.
* The Python `re` usage is embedded by a small regex interpreter covering
  exactly the constructs the rule catalog uses: literal strings, one-character
  classes, greedy `*` and `+` over one-character classes and concatenation.
  `IGNORECASE` is modelled by ASCII case folding on literals (every literal in
  the catalog is ASCII).  The `\b word \b` idiom of the contradiction check is
  embedded by a dedicated whole-word scanner, and `re.split(r"[.!?]+", s)` by a
  dedicated splitter; both follow the Python semantics on their inputs.
* `datetime.now()` is outside the embedding; the `timestamp` field is omitted
  from the result record.  All other fields are carried.
-/

namespace Lithium

/-! ### Character classes (ASCII fragment of Python `re` classes) -/

/-- Python `\w` (ASCII fragment: letters, digits, underscore). -/
def isWordChar (c : Char) : Bool := c.isAlphanum || c == '_'

/-- Python `\s` (ASCII fragment). -/
def isSpaceChar (c : Char) : Bool :=
  c == ' ' || c == '\t' || c == '\n' || c == '\r' || c == '\x0b' || c == '\x0c'

/-- Python `\d` (ASCII digits). -/
def isDigitChar (c : Char) : Bool := c.isDigit

/-- Case-insensitive comparison of one pattern character with one text
character (ASCII case folding, as all catalog literals are ASCII). -/
def ciEq (p c : Char) : Bool := p.toLower == c.toLower

/-- Does the text start with the literal `p`, case-insensitively? -/
def ciStarts : List Char → List Char → Bool
  | [], _ => true
  | _ :: _, [] => false
  | p :: ps, c :: cs => ciEq p c && ciStarts ps cs

/-- Plain (case-sensitive) list prefix test, for Python's `word in text`. -/
def litStarts : List Char → List Char → Bool
  | [], _ => true
  | _ :: _, [] => false
  | p :: ps, c :: cs => p == c && litStarts ps cs

/-- Python's substring test `w in cs` (case-sensitive). -/
def containsSub (w : List Char) : List Char → Bool
  | [] => w.isEmpty
  | c :: t => litStarts w (c :: t) || containsSub w t

/-! ### A small regex interpreter

Exactly the fragment used by the rule catalog: literals, single-character
classes, greedy `*`/`+` of a class, concatenation.  `rests r cs` lists the
possible remainders after matching `r` at the head of `cs`, in the priority
order of a backtracking engine (greedy repetitions try longest first), so its
head is the match Python's `re` would produce at this position. -/

inductive Regex where
  | lit : List Char → Regex
  | one : (Char → Bool) → Regex
  | star : (Char → Bool) → Regex
  | plus : (Char → Bool) → Regex
  | cat : Regex → Regex → Regex

/-- Length of the maximal run of characters satisfying `p`. -/
def clsRun (p : Char → Bool) : List Char → Nat
  | [] => 0
  | c :: t => if p c then clsRun p t + 1 else 0

/-- Possible remainders after matching `r` at the head of `cs`, in
backtracking priority order (greedy first). -/
def Regex.rests : Regex → List Char → List (List Char)
  | .lit s, cs => if ciStarts s cs then [cs.drop s.length] else []
  | .one _, [] => []
  | .one p, c :: t => if p c then [t] else []
  | .star p, cs =>
      (List.range (clsRun p cs + 1)).map (fun i => cs.drop (clsRun p cs - i))
  | .plus p, cs =>
      (List.range (clsRun p cs)).map (fun i => cs.drop (clsRun p cs - i))
  | .cat a b, cs => (a.rests cs).flatMap b.rests

/-- Length of the match of `r` at the head of `cs` (highest-priority parse),
or `none` if there is no match here. -/
def matchLen (r : Regex) (cs : List Char) : Option Nat :=
  (r.rests cs).head?.map (fun rest => cs.length - rest.length)

/-- Python `re.search`: does `r` match starting at some position of `cs`? -/
def searchAt (r : Regex) : List Char → Bool
  | [] => !(r.rests []).isEmpty
  | c :: t => !(r.rests (c :: t)).isEmpty || searchAt r t

/-- Fuel-indexed worker for `re.findall`: leftmost, non-overlapping matches,
scanning left to right; an empty match advances the scan by one character.
Every step consumes at least one character of the text, so any fuel exceeding
the text length makes the fuel cutoff unreachable. -/
def findallFuel (r : Regex) : Nat → List Char → List (List Char)
  | 0, _ => []
  | _ + 1, [] =>
    (match matchLen r [] with
     | some _ => [[]]
     | none => [])
  | fuel + 1, c :: t =>
    match matchLen r (c :: t) with
    | none => findallFuel r fuel t
    | some 0 => [] :: findallFuel r fuel t
    | some (n + 1) => (c :: t).take (n + 1) :: findallFuel r fuel ((c :: t).drop (n + 1))

/-- Python `re.findall` over a character list. -/
def findallGo (r : Regex) (cs : List Char) : List (List Char) :=
  findallFuel r (cs.length + 1) cs

/-- Python `re.findall` on strings, returning matched substrings. -/
def findall (r : Regex) (s : String) : List String :=
  (findallGo r s.toList).map List.asString

/-! ### The rule catalog (`_load_validation_rules`) -/

/-- Pattern `r"according to [^,]+,"`. -/
def accordingToRe : Regex :=
  .cat (.lit "according to ".toList) (.cat (.plus (fun c => c != ',')) (.lit [',']))

/-- The `factual_patterns` table from `_load_validation_rules`. -/
def factual_patterns : List Regex :=
  [ accordingToRe,
    .lit "studies show".toList,
    .lit "research indicates".toList,
    .lit "data suggests".toList,
    .lit "statistics show".toList ]

/-- The `uncertainty_indicators` table from `_load_validation_rules`. -/
def uncertainty_indicators : List Regex :=
  [ .lit "might be".toList,
    .lit "could be".toList,
    .lit "possibly".toList,
    .lit "perhaps".toList,
    .lit "it seems".toList,
    .lit "appears to".toList ]

/-- Character class `[\d\w\s,]` of the bracket citation pattern. -/
def citeCls (c : Char) : Bool :=
  isDigitChar c || isWordChar c || isSpaceChar c || c == ','

/-- Pattern `r"\[[\d\w\s,]+\]"`. -/
def bracketCiteRe : Regex :=
  .cat (.lit ['[']) (.cat (.plus citeCls) (.lit [']']))

/-- Pattern `r"\([^)]*20\d{2}[^)]*\)"`. -/
def parenYearRe : Regex :=
  .cat (.lit ['('])
    (.cat (.star (fun c => c != ')'))
      (.cat (.lit "20".toList)
        (.cat (.one isDigitChar)
          (.cat (.one isDigitChar)
            (.cat (.star (fun c => c != ')')) (.lit [')']))))))

/-- The `citation_patterns` table from `_load_validation_rules`. -/
def citation_patterns : List Regex :=
  [ bracketCiteRe,
    parenYearRe,
    .lit "source:".toList,
    .lit "reference:".toList,
    .lit "according to".toList ]

/-- Pattern `r"\[[^\]]*\]"`, the incomplete-citation scan. -/
def bracketAnyRe : Regex :=
  .cat (.lit ['[']) (.cat (.star (fun c => c != ']')) (.lit [']']))

/-! ### Whole-word search and sentence splitting -/

/-- Scanner for `re.search(rf"\b w \b", text, IGNORECASE)` where `w` consists
of word characters: `w` occurs case-insensitively at a position whose
predecessor (`prevC`) is absent or a non-word character, and whose successor is
absent or a non-word character. -/
def wordBoundaryAt (w : List Char) (prevC : Option Char) : List Char → Bool
  | [] => false
  | c :: t =>
    ((match prevC with | none => true | some p => !isWordChar p)
      && ciStarts w (c :: t)
      && (match (c :: t).drop w.length with | [] => true | d :: _ => !isWordChar d))
    || wordBoundaryAt w (some c) t

/-- Whole-word, case-insensitive occurrence of `w` in `output`. -/
def wholeWordCI (w output : String) : Bool :=
  wordBoundaryAt w.toList none output.toList

/-- Is this a sentence-terminal punctuation character (`[.!?]`)? -/
def isSentPunct (c : Char) : Bool := c == '.' || c == '!' || c == '?'

mutual

/-- Worker for `re.split(r"[.!?]+", s)`: inside a segment, accumulating `cur`
(reversed). -/
def splitSegGo (cur : List Char) : List Char → List (List Char)
  | [] => [cur.reverse]
  | c :: t =>
    if isSentPunct c then cur.reverse :: splitSkipGo t else splitSegGo (c :: cur) t

/-- Worker for `re.split(r"[.!?]+", s)`: inside a run of delimiters. -/
def splitSkipGo : List Char → List (List Char)
  | [] => [[]]
  | c :: t => if isSentPunct c then splitSkipGo t else splitSegGo [c] t

end

/-- Python `re.split(r"[.!?]+", output)` as in `_validate_logical_consistency`. -/
def splitSentences (output : String) : List (List Char) :=
  splitSegGo [] output.toList

/-! ### Result record and configuration -/

/-- The `ConfidenceLevel` enumeration of the engine. -/
inductive ConfidenceLevel where
  | high
  | medium
  | low
  | insufficient
deriving DecidableEq, Repr

/-- The recognized configuration options with the defaults of
`_default_config`. -/
structure Config where
  confidence_threshold : ℚ
  enable_factual_validation : Bool
  enable_logical_consistency : Bool
  enable_source_attribution : Bool
  max_warnings : Nat
deriving DecidableEq, Repr

/-- Embeds `_default_config`. -/
def default_config : Config :=
  { confidence_threshold := 0.7
    enable_factual_validation := true
    enable_logical_consistency := true
    enable_source_attribution := true
    max_warnings := 10 }

/-- One entry of the `details` mapping: category key, unweighted sub-score,
warning count. -/
structure DetailEntry where
  key : String
  score : ℚ
  warning_count : Nat
deriving DecidableEq, Repr

/-- The `ValidationResult` record (the `timestamp` field, wall-clock time, is
outside the embedding). -/
structure ValidationResult where
  is_valid : Bool
  confidence : ConfidenceLevel
  score : ℚ
  details : List DetailEntry
  warnings : List String
  validation_type : String
deriving DecidableEq, Repr

/-! ### The three detectors -/

/-- Embeds `OutputValidator._validate_factual_claims`. -/
def validate_factual_claims (output : String) : ℚ × List String :=
  let cs := output.toList
  let r := factual_patterns.foldl
    (fun acc pat =>
      if !(findallGo pat cs).isEmpty then
        (acc.1 - 0.2,
         acc.2 ++ ["Unsupported factual claim detected: "
                    ++ ((findallGo pat cs).headD []).asString])
      else acc)
    ((1 : ℚ), ([] : List String))
  let uncertainty_count :=
    (uncertainty_indicators.map (fun pat => (findallGo pat cs).length)).sum
  let score :=
    if uncertainty_count > 0 then
      r.1 + min ((uncertainty_count : ℚ) * 0.1) 0.3
    else r.1
  (max 0 (min 1 score), r.2)

/-- The fixed contradiction word pairs of `_validate_logical_consistency`. -/
def contradictions : List (String × String) :=
  [("always", "never"), ("all", "none"), ("every", "no"), ("completely", "partially")]

/-- The transition words of the coherence check. -/
def transition_words : List String :=
  ["however", "therefore", "moreover", "furthermore", "additionally"]

/-- Python `any(word in output.lower() for word in transition_words)`. -/
def hasTransitions (output : String) : Bool :=
  transition_words.any (fun w => containsSub w.toList (output.toList.map Char.toLower))

/-- Embeds `OutputValidator._validate_logical_consistency`. -/
def validate_logical_consistency (output : String) : ℚ × List String :=
  let r := contradictions.foldl
    (fun acc pr =>
      if wholeWordCI pr.1 output && wholeWordCI pr.2 output then
        (acc.1 - 0.3,
         acc.2 ++ ["Potential contradiction detected: " ++ pr.1 ++ " vs " ++ pr.2])
      else acc)
    ((1 : ℚ), ([] : List String))
  let sentences := splitSentences output
  let score :=
    if sentences.length > 1 then
      if hasTransitions output then r.1 + 0.1 else r.1
    else r.1
  (max 0 (min 1 score), r.2)

/-- The has-citations test: `any(re.search(pattern, output, IGNORECASE))` over
`citation_patterns`. -/
def has_citations (output : String) : Bool :=
  citation_patterns.any (fun pat => searchAt pat output.toList)

/-- Embeds `OutputValidator._validate_source_attribution`. -/
def validate_source_attribution (output : String) : ℚ × List String :=
  let cs := output.toList
  let r :=
    if !has_citations output then
      ((1 : ℚ) - 0.4, ["No citations or source attributions found"])
    else ((1 : ℚ), ([] : List String))
  let r2 :=
    if has_citations output then
      (findallGo bracketAnyRe cs).foldl
        (fun acc citation =>
          if citation.length < 5 then
            (acc.1 - 0.1, acc.2 ++ ["Incomplete citation: " ++ citation.asString])
          else acc)
        r
    else r
  (max 0 (min 1 r2.1), r2.2)

/-- Embeds `OutputValidator._determine_confidence`. -/
def determine_confidence (score : ℚ) : ConfidenceLevel :=
  if score ≥ 0.9 then .high
  else if score ≥ 0.7 then .medium
  else if score ≥ 0.5 then .low
  else .insufficient

/-! ### The aggregator (`OutputValidator.validate`) -/

set_option linter.unusedVariables false in
/-- Embeds `OutputValidator.validate`.  The `context` argument is accepted and,
as in the source, never read. -/
def validate (cfg : Config) (output : String) (context : Option String)
    (validation_type : String) : ValidationResult :=
  let s0 : ℚ × List String × List DetailEntry := (0, [], [])
  let s1 :=
    if cfg.enable_factual_validation then
      let fr := validate_factual_claims output
      (s0.1 + fr.1 * 0.4, s0.2.1 ++ fr.2,
       s0.2.2 ++ [⟨"factual_validation", fr.1, fr.2.length⟩])
    else s0
  let s2 :=
    if cfg.enable_logical_consistency then
      let lr := validate_logical_consistency output
      (s1.1 + lr.1 * 0.3, s1.2.1 ++ lr.2,
       s1.2.2 ++ [⟨"logical_consistency", lr.1, lr.2.length⟩])
    else s1
  let s3 :=
    if cfg.enable_source_attribution then
      let sr := validate_source_attribution output
      (s2.1 + sr.1 * 0.3, s2.2.1 ++ sr.2,
       s2.2.2 ++ [⟨"source_attribution", sr.1, sr.2.length⟩])
    else s2
  let confidence := determine_confidence s3.1
  let is_valid := decide (s3.1 ≥ cfg.confidence_threshold)
  let final_warnings :=
    if s3.2.1.length > cfg.max_warnings then
      let truncated := s3.2.1.take cfg.max_warnings
      truncated
        ++ ["... and " ++ toString (truncated.length - cfg.max_warnings) ++ " more warnings"]
    else s3.2.1
  { is_valid := is_valid
    confidence := confidence
    score := s3.1
    details := s3.2.2
    warnings := final_warnings
    validation_type := validation_type }

/-! ### Closed forms for the detectors

Formulations following the spec's wording, to be proved equal to the
operational definitions above. -/

/-- The factual patterns having at least one match in `output`. -/
def matchingFactual (output : String) : List Regex :=
  factual_patterns.filter fun pat => !(findallGo pat output.toList).isEmpty

/-- Total uncertainty-indicator match count, summed over all patterns, not
deduplicated. -/
def uncertaintyCount (output : String) : Nat :=
  (uncertainty_indicators.map fun pat => (findallGo pat output.toList).length).sum

/-- The contradiction pairs whose two words both occur as whole words. -/
def contraPairs (output : String) : List (String × String) :=
  contradictions.filter fun pr => wholeWordCI pr.1 output && wholeWordCI pr.2 output

/-- The bracketed spans of `output` shorter than five characters. -/
def shortBrackets (output : String) : List (List Char) :=
  (findallGo bracketAnyRe output.toList).filter fun citation => citation.length < 5

/-- Closed form of the factual-pattern fold: one 0.2 deduction and one warning
per matching pattern. -/
theorem factual_foldl (cs : List Char) :
    ∀ (l : List Regex) (s : ℚ) (ws : List String),
      l.foldl
        (fun acc pat =>
          if !(findallGo pat cs).isEmpty then
            (acc.1 - 0.2,
             acc.2 ++ ["Unsupported factual claim detected: "
                        ++ ((findallGo pat cs).headD []).asString])
          else acc) (s, ws)
      = (s - 0.2 * ((l.filter fun pat => !(findallGo pat cs).isEmpty).length : ℚ),
         ws ++ (l.filter fun pat => !(findallGo pat cs).isEmpty).map fun pat =>
           "Unsupported factual claim detected: "
             ++ ((findallGo pat cs).headD []).asString) := by
  intro l
  induction l with
  | nil => intro s ws; simp
  | cons a t ih =>
    intro s ws
    cases hb : (findallGo a cs).isEmpty
    · simp only [List.foldl_cons, hb, Bool.not_false, if_pos, List.filter_cons, ih,
        List.length_cons, List.map_cons, List.append_assoc, List.singleton_append,
        Nat.cast_add, Nat.cast_one, Prod.mk.injEq]
      exact ⟨by ring, trivial⟩
    · simp only [List.foldl_cons, hb, Bool.not_true, if_neg, ih, List.filter_cons]
      simp [ih]

/-- Closed form of the contradiction-pair fold: one 0.3 deduction and one
warning per pair with both words present. -/
theorem contradiction_foldl (output : String) :
    ∀ (l : List (String × String)) (s : ℚ) (ws : List String),
      l.foldl
        (fun acc pr =>
          if wholeWordCI pr.1 output && wholeWordCI pr.2 output then
            (acc.1 - 0.3,
             acc.2 ++ ["Potential contradiction detected: " ++ pr.1 ++ " vs " ++ pr.2])
          else acc) (s, ws)
      = (s - 0.3 * ((l.filter fun pr => wholeWordCI pr.1 output && wholeWordCI pr.2 output).length : ℚ),
         ws ++ (l.filter fun pr => wholeWordCI pr.1 output && wholeWordCI pr.2 output).map fun pr =>
           "Potential contradiction detected: " ++ pr.1 ++ " vs " ++ pr.2) := by
  intro l
  induction l with
  | nil => intro s ws; simp
  | cons a t ih =>
    intro s ws
    cases hb : wholeWordCI a.1 output && wholeWordCI a.2 output
    · simp only [List.foldl_cons, hb, if_neg, ih, List.filter_cons]
      simp [ih]
    · simp only [List.foldl_cons, hb, if_pos, List.filter_cons, ih,
        List.length_cons, List.map_cons, List.append_assoc, List.singleton_append,
        Nat.cast_add, Nat.cast_one, Prod.mk.injEq]
      exact ⟨by ring, trivial⟩

/-- Closed form of the incomplete-citation fold: one 0.1 deduction and one
warning per bracketed span shorter than five characters. -/
theorem citation_foldl :
    ∀ (l : List (List Char)) (s : ℚ) (ws : List String),
      l.foldl
        (fun acc citation =>
          if citation.length < 5 then
            (acc.1 - 0.1, acc.2 ++ ["Incomplete citation: " ++ citation.asString])
          else acc) (s, ws)
      = (s - 0.1 * ((l.filter fun citation => citation.length < 5).length : ℚ),
         ws ++ (l.filter fun citation => citation.length < 5).map fun citation =>
           "Incomplete citation: " ++ citation.asString) := by
  intro l
  induction l with
  | nil => intro s ws; simp
  | cons a t ih =>
    intro s ws
    by_cases hb : a.length < 5
    · simp only [List.foldl_cons, hb, if_pos, List.filter_cons, decide_eq_true_eq,
        List.length_cons, List.map_cons, List.append_assoc, List.singleton_append,
        Nat.cast_add, Nat.cast_one, ih]
      simp [hb]
      exact by ring
    · simp only [List.foldl_cons, hb, if_neg, ih, List.filter_cons]
      simp [hb, ih]

/-- The factual-claim detector in closed form: clamp of 1.0, minus 0.2 per
matching factual pattern, plus the capped uncertainty bonus; one warning per
matching pattern quoting its first match. -/
theorem factual_spec (output : String) :
    validate_factual_claims output
      = (max 0 (min 1 ((1 : ℚ) - 0.2 * ((matchingFactual output).length : ℚ)
            + min ((uncertaintyCount output : ℚ) * 0.1) 0.3)),
         (matchingFactual output).map fun pat =>
           "Unsupported factual claim detected: "
             ++ ((findallGo pat output.toList).headD []).asString) := by
  unfold matchingFactual uncertaintyCount
  simp only [validate_factual_claims]
  rw [factual_foldl]
  by_cases h : 0 < (uncertainty_indicators.map fun pat => (findallGo pat output.toList).length).sum
  · rw [if_pos h]
    simp only [List.nil_append]
  · rw [if_neg h]
    have h0 : (uncertainty_indicators.map fun pat => (findallGo pat output.toList).length).sum = 0 := by
      omega
    rw [h0, Nat.cast_zero, show (0 : ℚ) * 0.1 = 0 by norm_num,
        min_eq_left (by norm_num : (0 : ℚ) ≤ 0.3), add_zero]
    simp only [List.nil_append]

/-- The logical-consistency detector in closed form: clamp of 1.0, minus 0.3
per contradiction pair present, plus a flat 0.1 when the text splits into more
than one segment and contains a transition word; one warning per pair. -/
theorem logical_spec (output : String) :
    validate_logical_consistency output
      = (max 0 (min 1 ((1 : ℚ) - 0.3 * ((contraPairs output).length : ℚ)
            + (if 1 < (splitSentences output).length ∧ hasTransitions output = true
               then 0.1 else 0))),
         (contraPairs output).map fun pr =>
           "Potential contradiction detected: " ++ pr.1 ++ " vs " ++ pr.2) := by
  unfold contraPairs
  simp only [validate_logical_consistency]
  rw [contradiction_foldl]
  by_cases h1 : 1 < (splitSentences output).length
  · by_cases h2 : hasTransitions output = true
    · rw [if_pos h1, if_pos h2, if_pos (⟨h1, h2⟩ : _ ∧ _)]
      simp only [List.nil_append]
    · rw [if_pos h1, if_neg h2, if_neg (fun hc => h2 hc.2), add_zero]
      simp only [List.nil_append]
  · rw [if_neg h1, if_neg (fun hc => h1 hc.1), add_zero]
    simp only [List.nil_append]

/-- The source-attribution detector in closed form: with no citation-pattern
match, score 0.6 and the single missing-citations warning; with a match, clamp
of 1.0 minus 0.1 per bracketed span shorter than five characters, with one
warning per such span. -/
theorem source_spec (output : String) :
    validate_source_attribution output
      = if has_citations output then
          (max 0 (min 1 ((1 : ℚ) - 0.1 * ((shortBrackets output).length : ℚ))),
           (shortBrackets output).map fun citation =>
             "Incomplete citation: " ++ citation.asString)
        else (0.6, ["No citations or source attributions found"]) := by
  unfold shortBrackets
  simp only [validate_source_attribution]
  by_cases h : has_citations output = true
  · rw [if_pos h]
    have hn : ¬((!has_citations output) = true) := by simp [h]
    rw [if_neg hn, if_pos h, citation_foldl]
    simp only [List.nil_append]
  · have hf : has_citations output = false := by
      cases hc : has_citations output
      · rfl
      · exact absurd hc h
    have hp : (!has_citations output) = true := by simp [hf]
    rw [if_neg h, if_pos hp, if_neg h]
    rw [show (1 : ℚ) - 0.4 = 0.6 by norm_num,
        min_eq_right (by norm_num : (0.6 : ℚ) ≤ 1),
        max_eq_right (by norm_num : (0 : ℚ) ≤ 0.6)]

/-! ### Closed form of the aggregator -/

/-- Aggregate weighted score: over each enabled detector, the (already
clamped) sub-score times its fixed weight — factual 0.4, logical 0.3,
source 0.3 — with no re-clamping after weighting. -/
def weightedScore (cfg : Config) (output : String) : ℚ :=
  (if cfg.enable_factual_validation then (validate_factual_claims output).1 * 0.4 else 0)
  + (if cfg.enable_logical_consistency then (validate_logical_consistency output).1 * 0.3 else 0)
  + (if cfg.enable_source_attribution then (validate_source_attribution output).1 * 0.3 else 0)

/-- Concatenation of the enabled detectors' warnings, in detector invocation
order (factual, logical, source), before truncation. -/
def rawWarnings (cfg : Config) (output : String) : List String :=
  (if cfg.enable_factual_validation then (validate_factual_claims output).2 else [])
  ++ (if cfg.enable_logical_consistency then (validate_logical_consistency output).2 else [])
  ++ (if cfg.enable_source_attribution then (validate_source_attribution output).2 else [])

/-- The `details` entries of the enabled detectors, in detector order. -/
def detailsOf (cfg : Config) (output : String) : List DetailEntry :=
  (if cfg.enable_factual_validation then
    [⟨"factual_validation", (validate_factual_claims output).1,
      (validate_factual_claims output).2.length⟩] else [])
  ++ (if cfg.enable_logical_consistency then
    [⟨"logical_consistency", (validate_logical_consistency output).1,
      (validate_logical_consistency output).2.length⟩] else [])
  ++ (if cfg.enable_source_attribution then
    [⟨"source_attribution", (validate_source_attribution output).1,
      (validate_source_attribution output).2.length⟩] else [])

/-- The warning-truncation policy of `validate`, reproducing the source's
literal arithmetic for the omitted count (computed from the already-truncated
list's length). -/
def truncateWarnings (k : Nat) (ws : List String) : List String :=
  if ws.length > k then
    ws.take k ++ ["... and " ++ toString ((ws.take k).length - k) ++ " more warnings"]
  else ws

/-- Closed form of `validate`, field by field. -/
theorem validate_eq (cfg : Config) (output : String) (context : Option String)
    (mode : String) :
    validate cfg output context mode =
      { is_valid := decide (cfg.confidence_threshold ≤ weightedScore cfg output)
        confidence := determine_confidence (weightedScore cfg output)
        score := weightedScore cfg output
        details := detailsOf cfg output
        warnings := truncateWarnings cfg.max_warnings (rawWarnings cfg output)
        validation_type := mode } := by
  unfold validate weightedScore rawWarnings detailsOf truncateWarnings
  by_cases hf : cfg.enable_factual_validation <;>
    by_cases hl : cfg.enable_logical_consistency <;>
      by_cases hs : cfg.enable_source_attribution <;>
        simp [hf, hl, hs]

/-! ### The claims -/

/-- C1: for every input text and every subset of enabled detectors, the
aggregate score returned by `validate` equals the sum over enabled detectors
of (clamped sub-score times fixed weight), with weights factual 0.4,
logical 0.3, source 0.3 and no re-clamping after weighting, and `is_valid`
holds if and only if the aggregate score is at least `confidence_threshold`. -/
theorem C1_aggregate_score (cfg : Config) (output : String) (context : Option String)
    (mode : String) :
    (validate cfg output context mode).score
        = (if cfg.enable_factual_validation
            then (validate_factual_claims output).1 * 0.4 else 0)
          + (if cfg.enable_logical_consistency
              then (validate_logical_consistency output).1 * 0.3 else 0)
          + (if cfg.enable_source_attribution
              then (validate_source_attribution output).1 * 0.3 else 0)
      ∧ ((validate cfg output context mode).is_valid = true
          ↔ cfg.confidence_threshold ≤ (validate cfg output context mode).score) := by
  rw [validate_eq]
  exact ⟨rfl, by simp⟩

/-- C2: the confidence tier of the returned result is determined from the
aggregate score by inclusive lower bounds: HIGH for `s ≥ 0.9`, MEDIUM for
`0.7 ≤ s < 0.9`, LOW for `0.5 ≤ s < 0.7`, INSUFFICIENT otherwise; in
particular `tier 0.9 = HIGH`, `tier 0.7 = MEDIUM`, `tier 0.5 = LOW` and
`tier 0.4999 = INSUFFICIENT`. -/
theorem C2_confidence_tiers :
    (∀ (cfg : Config) (output : String) (context : Option String) (mode : String),
        (validate cfg output context mode).confidence
          = determine_confidence (validate cfg output context mode).score)
    ∧ (∀ s : ℚ,
        (determine_confidence s = .high ↔ 0.9 ≤ s)
        ∧ (determine_confidence s = .medium ↔ 0.7 ≤ s ∧ s < 0.9)
        ∧ (determine_confidence s = .low ↔ 0.5 ≤ s ∧ s < 0.7)
        ∧ (determine_confidence s = .insufficient ↔ s < 0.5))
    ∧ determine_confidence 0.9 = .high
    ∧ determine_confidence 0.7 = .medium
    ∧ determine_confidence 0.5 = .low
    ∧ determine_confidence 0.4999 = .insufficient := by
  refine ⟨fun cfg output context mode => by rw [validate_eq], fun s => ?_, ?_, ?_, ?_, ?_⟩
  · unfold determine_confidence
    split_ifs with h1 h2 h3 <;>
      refine ⟨?_, ?_, ?_, ?_⟩ <;> simp_all <;> first | linarith | (intro h; linarith)
  · norm_num [determine_confidence]
  · norm_num [determine_confidence]
  · norm_num [determine_confidence]
  · norm_num [determine_confidence]

/-- C3: the `mode` string affects only the echoed `validation_type` field:
two calls differing only in mode agree on `is_valid`, `confidence`, `score`,
`details` and `warnings`. -/
theorem C3_mode_cosmetic (cfg : Config) (output : String) (context : Option String)
    (m1 m2 : String) :
    (validate cfg output context m1).is_valid = (validate cfg output context m2).is_valid
    ∧ (validate cfg output context m1).confidence
        = (validate cfg output context m2).confidence
    ∧ (validate cfg output context m1).score = (validate cfg output context m2).score
    ∧ (validate cfg output context m1).details = (validate cfg output context m2).details
    ∧ (validate cfg output context m1).warnings = (validate cfg output context m2).warnings
    ∧ (validate cfg output context m1).validation_type = m1
    ∧ (validate cfg output context m2).validation_type = m2 :=
  ⟨rfl, rfl, rfl, rfl, rfl, rfl, rfl⟩

/-- C4: when the detectors together produce more than `max_warnings = k`
warnings, the returned warnings sequence has length `k + 1`, its first `k`
entries are the first `k` of the untruncated concatenation, and its last entry
is the synthetic summary whose omitted-count comes from the already-truncated
list's length (hence always 0), not from the true number of omitted items. -/
theorem C4_truncation (cfg : Config) (output : String) (context : Option String)
    (mode : String) (h : cfg.max_warnings < (rawWarnings cfg output).length) :
    (validate cfg output context mode).warnings.length = cfg.max_warnings + 1
    ∧ (validate cfg output context mode).warnings.take cfg.max_warnings
        = (rawWarnings cfg output).take cfg.max_warnings
    ∧ (validate cfg output context mode).warnings.getLast?
        = some "... and 0 more warnings" := by
  rw [validate_eq]
  have hlen : ((rawWarnings cfg output).take cfg.max_warnings).length = cfg.max_warnings := by
    rw [List.length_take]; omega
  unfold truncateWarnings
  rw [if_pos h]
  refine ⟨?_, ?_, ?_⟩
  · rw [List.length_append, hlen]; rfl
  · rw [List.take_append_of_le_length (le_of_eq hlen.symm), List.take_take, min_self]
  · rw [hlen, Nat.sub_self, List.getLast?_append_cons]
    rfl

/-- Witness for C4 at a concrete input: with `max_warnings = 0` and empty
text, the single missing-citations warning exceeds the limit, and the returned
list is exactly the synthetic summary entry. -/
theorem C4_truncation_witness :
    ({ default_config with max_warnings := 0 } : Config).max_warnings
        < (rawWarnings { default_config with max_warnings := 0 } "").length
    ∧ (validate { default_config with max_warnings := 0 } "" none "comprehensive").warnings.length
        = ({ default_config with max_warnings := 0 } : Config).max_warnings + 1 :=
  ⟨by decide,
   (C4_truncation { default_config with max_warnings := 0 } "" none "comprehensive"
      (by decide)).1⟩

/-- C5: the factual-claim detector returns the clamp to `[0, 1]` of 1.0 minus
0.2 per matching factual pattern (no deduplication across patterns) plus
`min (0.1 × total uncertainty-indicator match count) 0.3`, together with one
warning per matching pattern quoting that pattern's first match. -/
theorem C5_factual_detector (output : String) :
    (validate_factual_claims output).1
        = max 0 (min 1 ((1 : ℚ) - 0.2 * ((matchingFactual output).length : ℚ)
            + min ((uncertaintyCount output : ℚ) * 0.1) 0.3))
    ∧ (validate_factual_claims output).2
        = (matchingFactual output).map fun pat =>
            "Unsupported factual claim detected: "
              ++ ((findallGo pat output.toList).headD []).asString := by
  rw [factual_spec]
  exact ⟨rfl, rfl⟩

/-- C6: the logical-consistency detector returns the clamp to `[0, 1]` of 1.0
minus 0.3 per contradiction pair whose both words occur as whole words (one
warning per such pair), plus a flat 0.1 exactly when splitting on
sentence-terminal punctuation yields more than one segment and some transition
word occurs in the lower-cased text. -/
theorem C6_logical_detector (output : String) :
    (validate_logical_consistency output).1
        = max 0 (min 1 ((1 : ℚ) - 0.3 * ((contraPairs output).length : ℚ)
            + (if 1 < (splitSentences output).length ∧ hasTransitions output = true
               then 0.1 else 0)))
    ∧ (validate_logical_consistency output).2
        = (contraPairs output).map fun pr =>
            "Potential contradiction detected: " ++ pr.1 ++ " vs " ++ pr.2 := by
  rw [logical_spec]
  exact ⟨rfl, rfl⟩

/-- C7: the source-attribution detector emits the missing-citations warning
and subtracts 0.4 exactly when no citation pattern matches; when one matches,
it instead subtracts 0.1 and warns once per bracketed span shorter than five
characters, clamping the total to `[0, 1]`. -/
theorem C7_source_detector (output : String) :
    (validate_source_attribution output
        = if has_citations output then
            (max 0 (min 1 ((1 : ℚ) - 0.1 * ((shortBrackets output).length : ℚ))),
             (shortBrackets output).map fun citation =>
               "Incomplete citation: " ++ citation.asString)
          else (0.6, ["No citations or source attributions found"]))
    ∧ ("No citations or source attributions found"
          ∈ (validate_source_attribution output).2
        ↔ has_citations output = false) := by
  refine ⟨source_spec output, ?_⟩
  rw [source_spec]
  by_cases h : has_citations output = true
  · rw [if_pos h]
    simp only [h, iff_false, Bool.true_eq_false]
    intro hmem
    obtain ⟨c, _, hc⟩ := List.mem_map.1 hmem
    have hd := congrArg String.data hc
    simp [String.data_append] at hd
  · have hf : has_citations output = false := by
      cases hc : has_citations output
      · rfl
      · exact absurd hc h
    rw [if_neg h]
    simp [hf]

/-- C8: `validate` is total — every text, context and mode yield a
`ValidationResult` (the embedding is a total function, mirroring the absence
of exceptional paths in the engine) — and each detector's returned sub-score
lies in `[0, 1]`. -/
theorem C8_total_and_bounded (output : String) :
    (∀ (cfg : Config) (context : Option String) (mode : String),
        ∃ r : ValidationResult, validate cfg output context mode = r)
    ∧ (0 ≤ (validate_factual_claims output).1 ∧ (validate_factual_claims output).1 ≤ 1)
    ∧ (0 ≤ (validate_logical_consistency output).1
        ∧ (validate_logical_consistency output).1 ≤ 1)
    ∧ (0 ≤ (validate_source_attribution output).1
        ∧ (validate_source_attribution output).1 ≤ 1) := by
  refine ⟨fun cfg context mode => ⟨_, rfl⟩, ?_, ?_, ?_⟩
  · rw [factual_spec]
    exact ⟨le_max_left _ _, max_le (by norm_num) (min_le_left _ _)⟩
  · rw [logical_spec]
    exact ⟨le_max_left _ _, max_le (by norm_num) (min_le_left _ _)⟩
  · rw [source_spec]
    by_cases h : has_citations output = true
    · rw [if_pos h]
      exact ⟨le_max_left _ _, max_le (by norm_num) (min_le_left _ _)⟩
    · rw [if_neg h]
      norm_num

/-- The boundary example text of the spec's testable properties. -/
def exampleText : String :=
  "According to recent studies, the sky is always blue everywhere on Earth."

/-- C9: on the example text, `validate` under the default configuration
produces at least one factual-claim warning, no contradiction warning (only
`always` occurs, `never` does not), and zero source-attribution warnings —
the has-citations test is true because `according to` is itself a citation
pattern.  The full warning list is exactly the one factual warning. -/
theorem C9_example_text :
    0 < (validate_factual_claims exampleText).2.length
    ∧ (validate_logical_consistency exampleText).2 = []
    ∧ (validate_source_attribution exampleText).2 = []
    ∧ has_citations exampleText = true
    ∧ (validate default_config exampleText none "comprehensive").warnings
        = ["Unsupported factual claim detected: According to recent studies,"] :=
  ⟨by decide, by decide, by decide, by decide, by decide⟩

/-- C10: on the empty text under the default configuration, `validate`
returns exactly one warning (missing citations), factual and logical
sub-scores 1.0, source sub-score 0.6, aggregate score 0.88, confidence
MEDIUM, and `is_valid = true`. -/
theorem C10_empty_text :
    validate default_config "" none "comprehensive"
      = { is_valid := true
          confidence := .medium
          score := 0.88
          details := [⟨"factual_validation", 1, 0⟩, ⟨"logical_consistency", 1, 0⟩,
                      ⟨"source_attribution", 0.6, 1⟩]
          warnings := ["No citations or source attributions found"]
          validation_type := "comprehensive" } := by
  have hfpair : validate_factual_claims "" = (1, []) := by
    rw [factual_spec]
    have h1 : matchingFactual "" = [] :=
      List.length_eq_zero.mp (by decide)
    have h2 : uncertaintyCount "" = 0 := by decide
    rw [h1, h2]
    norm_num
  have hlpair : validate_logical_consistency "" = (1, []) := by
    rw [logical_spec]
    have h1 : contraPairs "" = [] :=
      List.length_eq_zero.mp (by decide)
    have h2 : ¬(1 < (splitSentences "").length ∧ hasTransitions "" = true) := by decide
    rw [h1, if_neg h2]
    norm_num
  have hcit : has_citations "" = false := by decide
  have hspair : validate_source_attribution ""
      = (0.6, ["No citations or source attributions found"]) := by
    rw [source_spec, if_neg (by simp [hcit] : ¬has_citations "" = true)]
  rw [validate_eq]
  have hw : weightedScore default_config "" = 0.88 := by
    unfold weightedScore default_config
    rw [hfpair, hlpair, hspair]
    norm_num
  have hd : detailsOf default_config ""
      = [⟨"factual_validation", 1, 0⟩, ⟨"logical_consistency", 1, 0⟩,
         ⟨"source_attribution", 0.6, 1⟩] := by
    unfold detailsOf default_config
    rw [hfpair, hlpair, hspair]
    rfl
  have hr : rawWarnings default_config ""
      = ["No citations or source attributions found"] := by
    unfold rawWarnings default_config
    rw [hfpair, hlpair, hspair]
    rfl
  rw [hw, hd, hr]
  have hvalid : decide (default_config.confidence_threshold ≤ (0.88 : ℚ)) = true := by
    simp only [decide_eq_true_eq]
    unfold default_config
    norm_num
  have hconf : determine_confidence 0.88 = .medium := by
    norm_num [determine_confidence]
  have htrunc : truncateWarnings default_config.max_warnings
      ["No citations or source attributions found"]
      = ["No citations or source attributions found"] := by
    decide
  rw [hvalid, hconf, htrunc]

end Lithium
